import Mathlib

/-!
# Verification of the CSOM action-batch pipeline of the term commands

Shallow embedding of `src/m365/spo/commands/term/term-set-list.ts`
(`SpoTermSetListCommand` and `SpoTermGroupAddCommand`): the JSON data
model of `ClientSvcResponse`, the action-batch decoder, the result
normalizer (wrapped date / GUID unwrapping, identity-field removal),
the request-body encoder and the option validators, together with
theorems settling the specification's claims about them.
-/

set_option maxHeartbeats 1000000

namespace CliM365

/-- JSON values, the data model of a parsed `ClientSvcResponse`.
Objects are association lists from field name to value, faithful to
`JSON.parse` output (no `undefined` member). -/
inductive JVal : Type where
  | null : JVal
  | bool : Bool → JVal
  | num : Int → JVal
  | str : String → JVal
  | arr : List JVal → JVal
  | obj : List (String × JVal) → JVal

namespace JVal

/-- Field lookup on an object's association list (`obj.field` access on a
field that is present; `none` models JavaScript's `undefined`). -/
def lookupField : List (String × JVal) → String → Option JVal
  | [], _ => none
  | (k, v) :: rest, key => if k = key then some v else lookupField rest key

/-- Member access `v.field` on an arbitrary JSON value: objects look the
field up, other non-null values yield `undefined` (here `none`). Member
access on `null` throws in JavaScript and is modelled separately. -/
def member (v : JVal) (key : String) : Option JVal :=
  match v with
  | .obj fields => lookupField fields key
  | _ => none

/-- JavaScript truthiness of a JSON value (`if (v)`). -/
def truthy : JVal → Bool
  | .null => false
  | .bool b => b
  | .num n => n != 0
  | .str s => s != ""
  | .arr _ => true
  | .obj _ => true

/-- Does the object association list carry the given key? -/
def hasKey (fields : List (String × JVal)) (key : String) : Bool :=
  fields.any (fun p => p.1 == key)

/-- JavaScript `delete obj.key`: removes the key from the mapping. -/
def deleteField (key : String) : List (String × JVal) → List (String × JVal)
  | [] => []
  | (k, v) :: rest =>
    if k = key then deleteField key rest else (k, v) :: deleteField key rest

/-- JavaScript `obj.key = v`: overwrite in place, or append when absent. -/
def setField (key : String) (v : JVal) : List (String × JVal) → List (String × JVal)
  | [] => [(key, v)]
  | (k, w) :: rest =>
    if k = key then (key, v) :: rest else (k, w) :: setField key v rest

end JVal

/-! ## The action-batch decoder

`commandAction` (term-set-list lines 112-118, term-group-add lines
242-248, 264-270, 290-295) decodes every batch response the same way:

```
const json: ClientSvcResponse = JSON.parse(processQuery);
const response: ClientSvcResponseContents = json[0];
if (response.ErrorInfo) {
  throw response.ErrorInfo.ErrorMessage;
}
const result = json[json.length - 1];
```
-/

/-- Outcome of decoding one batch response: a thrown server error message
(the value of `ErrorInfo.ErrorMessage`, `none` when that member is
absent), or the result payload. -/
inductive DecodeOut : Type where
  | err : Option JVal → DecodeOut
  | ok : JVal → DecodeOut

/-- The action-batch decoder. `none` models a JavaScript runtime
`TypeError` (member access `.ErrorInfo` on `undefined` — empty array — or
on `null`). Otherwise: when element 0 carries a truthy `ErrorInfo`, throw
its `ErrorMessage`; otherwise return the last element of the array. -/
def decodeClientSvcResponse (json : List JVal) : Option DecodeOut :=
  match json with
  | [] => none
  | first :: _ =>
    match first with
    | .null => none
    | _ =>
      match first.member "ErrorInfo" with
      | some ei =>
        if ei.truthy then some (.err (ei.member "ErrorMessage"))
        else some (.ok (json.getLastD .null))
      | none => some (.ok (json.getLastD .null))

end CliM365

namespace CliM365

/-- **C1.** For every decoded batch response array whose element 0
carries a non-null (truthy) `ErrorInfo` whose `ErrorMessage` is `m`, the
decoder fails with a server error carrying exactly `m`; and the outcome
is independent of every further element of the array (no further element
is read or processed). -/
theorem decode_error_first_element (first : JVal) (rest : List JVal)
    (ei m : JVal)
    (hei : first.member "ErrorInfo" = some ei)
    (ht : ei.truthy = true)
    (hm : ei.member "ErrorMessage" = some m) :
    decodeClientSvcResponse (first :: rest) = some (.err (some m)) ∧
    ∀ rest' : List JVal,
      decodeClientSvcResponse (first :: rest') =
        decodeClientSvcResponse (first :: rest) := by
  have hnn : first ≠ JVal.null := by
    intro h; subst h; simp [JVal.member] at hei
  constructor
  · cases first with
    | null => exact absurd rfl hnn
    | bool b => simp [JVal.member] at hei
    | num n => simp [JVal.member] at hei
    | str s => simp [JVal.member] at hei
    | arr xs => simp [JVal.member] at hei
    | obj fields =>
      simp only [decodeClientSvcResponse, hei, ht, if_pos, hm]
  · intro rest'
    cases first with
    | null => exact absurd rfl hnn
    | bool b => simp [JVal.member] at hei
    | num n => simp [JVal.member] at hei
    | str s => simp [JVal.member] at hei
    | arr xs => simp [JVal.member] at hei
    | obj fields =>
      simp only [decodeClientSvcResponse, hei, ht, if_pos]

/-- Witness for C1: a concrete failed batch response. -/
theorem decode_error_first_element_witness :
    decodeClientSvcResponse
      [JVal.obj [("SchemaVersion", JVal.str "15.0.0.0"),
                 ("ErrorInfo", JVal.obj [("ErrorMessage", JVal.str "An error has occurred.")])],
       JVal.num 7] = some (.err (some (JVal.str "An error has occurred."))) ∧
    ∀ rest' : List JVal,
      decodeClientSvcResponse
        (JVal.obj [("SchemaVersion", JVal.str "15.0.0.0"),
                   ("ErrorInfo", JVal.obj [("ErrorMessage", JVal.str "An error has occurred.")])] :: rest') =
      decodeClientSvcResponse
        [JVal.obj [("SchemaVersion", JVal.str "15.0.0.0"),
                   ("ErrorInfo", JVal.obj [("ErrorMessage", JVal.str "An error has occurred.")])],
         JVal.num 7] :=
  decode_error_first_element
    (JVal.obj [("SchemaVersion", JVal.str "15.0.0.0"),
               ("ErrorInfo", JVal.obj [("ErrorMessage", JVal.str "An error has occurred.")])])
    [JVal.num 7]
    (JVal.obj [("ErrorMessage", JVal.str "An error has occurred.")])
    (JVal.str "An error has occurred.") rfl rfl rfl

/-- **C2.** For every batch response array whose element 0 has a null
`ErrorInfo`, the decoder returns the last element of the array unchanged
as the result payload. -/
theorem decode_ok_last_element (fields : List (String × JVal))
    (rest : List JVal)
    (hei : JVal.lookupField fields "ErrorInfo" = some JVal.null) :
    decodeClientSvcResponse (JVal.obj fields :: rest) =
      some (.ok ((JVal.obj fields :: rest).getLastD .null)) := by
  simp only [decodeClientSvcResponse, JVal.member, hei, JVal.truthy]
  rfl

/-- Witness for C2: a concrete successful two-element batch response,
whose last element comes back unchanged. -/
theorem decode_ok_last_element_witness :
    decodeClientSvcResponse
      [JVal.obj [("ErrorInfo", JVal.null)],
       JVal.obj [("Name", JVal.str "PnPTermSets")]] =
      some (.ok (JVal.obj [("Name", JVal.str "PnPTermSets")])) := by
  have h := decode_ok_last_element [("ErrorInfo", JVal.null)]
    [JVal.obj [("Name", JVal.str "PnPTermSets")]] rfl
  simpa using h

end CliM365

namespace CliM365

/-! ## String primitives

`String.prototype.replace` with a string pattern replaces the first
occurrence only; the term commands use it to strip the `/Date(`, `/Guid(`
and `)/` wrappers (term-set-list lines 121-123, term-group-add line 299).
-/

/-- Is `pat` a prefix of the text? -/
def matchAt : List Char → List Char → Bool
  | [], _ => true
  | _ :: _, [] => false
  | p :: ps, c :: cs => p == c && matchAt ps cs

/-- Replace the first occurrence of `pat` by `repl`; identity when `pat`
never occurs (JavaScript `text.replace(pat, repl)` with a string
pattern). -/
def replFirst (pat repl : List Char) : List Char → List Char
  | [] => []
  | c :: cs =>
    if matchAt pat (c :: cs) then repl ++ (c :: cs).drop pat.length
    else c :: replFirst pat repl cs

/-- JavaScript `s.replace(pat, repl)` for a string pattern. -/
def jsReplace (s pat repl : String) : String :=
  ⟨replFirst pat.data repl.data s.data⟩

theorem matchAt_self_append (pat rest : List Char) :
    matchAt pat (pat ++ rest) = true := by
  induction pat with
  | nil => rfl
  | cons p ps ih => simp [matchAt, ih]

/-- Stripping a leading wrapper: when the text starts with the (nonempty)
pattern, the first occurrence is at position 0. -/
theorem replFirst_at_start (pat rest repl : List Char) (hne : pat ≠ []) :
    replFirst pat repl (pat ++ rest) = repl ++ rest := by
  cases pat with
  | nil => exact absurd rfl hne
  | cons p ps =>
    have hm := matchAt_self_append (p :: ps) rest
    have hd : ((p :: ps) ++ rest).drop (p :: ps).length = rest := List.drop_left _ _
    rw [List.cons_append] at hm hd ⊢
    rw [replFirst, if_pos, hd]
    exact hm

/-- Stripping a trailing `)/` wrapper: when no character of `ds` is `)`,
the first occurrence of `)/` in `ds ++ ")/"` is at the very end. -/
theorem replFirst_close_suffix (ds : List Char)
    (h : ∀ c ∈ ds, c ≠ ')') :
    replFirst [')', '/'] [] (ds ++ [')', '/']) = ds := by
  induction ds with
  | nil => rfl
  | cons c cs ih =>
    have hc : c ≠ ')' := h c (by simp)
    rw [List.cons_append, replFirst]
    have hcond : matchAt [')', '/'] (c :: (cs ++ [')', '/'])) = false := by
      simp only [matchAt]
      have : (')' == c) = false := by
        simp only [beq_eq_false_iff_ne]
        exact fun hh => hc hh.symm
      simp [this]
    rw [if_neg, ih (fun c hc' => h c (by simp [hc']))]
    simp [hcond]

/-! ## Wrapped GUID unwrapping

Term-set-list line 122 / term-group-add line 299:
`t.Id = t.Id.replace('/Guid(', '').replace(')/', '');`
-/

/-- The GUID unwrapper applied before output. -/
def unwrapGuid (s : String) : String :=
  jsReplace (jsReplace s "/Guid(" "") ")/" ""

/-- Characters that can occur in a GUID's text: hexadecimal digits and
hyphens. -/
def isGuidChar (c : Char) : Bool :=
  ('0' ≤ c && c ≤ '9') || ('a' ≤ c && c ≤ 'f') || ('A' ≤ c && c ≤ 'F') || c == '-'

end CliM365

namespace CliM365

/-- **C5.** For every wrapped-guid string of the form `/Guid(<guid>)/`,
the unwrapping applied before output yields exactly the inner GUID text,
with no prefix or suffix residue remaining. -/
theorem unwrapGuid_exact (g : String)
    (hg : ∀ c ∈ g.data, isGuidChar c = true) :
    unwrapGuid ("/Guid(" ++ g ++ ")/") = g := by
  have hne : ∀ c ∈ g.data, c ≠ ')' := by
    intro c hc he
    have := hg c hc
    rw [he] at this
    simp [isGuidChar] at this
  unfold unwrapGuid jsReplace
  have hdata : ("/Guid(" ++ g ++ ")/" : String).data =
      ('/' :: 'G' :: 'u' :: 'i' :: 'd' :: '(' :: []) ++ (g.data ++ [')', '/']) := by
    simp [String.data_append]
  rw [hdata]
  rw [show ("/Guid(" : String).data = ['/', 'G', 'u', 'i', 'd', '('] from rfl,
    show ("" : String).data = [] from rfl,
    show (")/" : String).data = [')', '/'] from rfl]
  rw [replFirst_at_start ['/', 'G', 'u', 'i', 'd', '('] (g.data ++ [')', '/']) []
    (by simp)]
  simp only [List.nil_append]
  rw [replFirst_close_suffix g.data hne]

/-- Witness for C5 at a concrete wrapped GUID. -/
theorem unwrapGuid_exact_witness :
    unwrapGuid ("/Guid(" ++ "7a167c47-2b37-41d0-94d0-e962c1a4f2ed" ++ ")/") =
      "7a167c47-2b37-41d0-94d0-e962c1a4f2ed" :=
  unwrapGuid_exact "7a167c47-2b37-41d0-94d0-e962c1a4f2ed" (by decide)

end CliM365

namespace CliM365

/-! ## Wrapped date normalization (term-set-list lines 121 and 123)

`t.CreatedDate = new Date(Number(t.CreatedDate.replace('/Date(', '').replace(')/', ''))).toISOString();`

The date model below follows ECMA-262 for `new Date(n).toISOString()`:
the proleptic Gregorian calendar around the 1970-01-01 epoch (signed
time values, negative expanded years), and the RangeError raised when
the time value lies outside plus/minus 8.64e15 milliseconds.
-/

def isLeap (y : Int) : Bool := (y % 4 == 0 && y % 100 != 0) || y % 400 == 0

def monthLen (leap : Bool) (m : Nat) : Nat :=
  if m = 2 then (if leap then 29 else 28)
  else if m = 4 ∨ m = 6 ∨ m = 9 ∨ m = 11 then 30
  else 31

structure YMD where
  year : Int
  month : Nat
  day : Nat

def nextDate (d : YMD) : YMD :=
  if d.day < monthLen (isLeap d.year) d.month then ⟨d.year, d.month, d.day + 1⟩
  else if d.month < 12 then ⟨d.year, d.month + 1, 1⟩
  else ⟨d.year + 1, 1, 1⟩

def prevDate (d : YMD) : YMD :=
  if 1 < d.day then ⟨d.year, d.month, d.day - 1⟩
  else if 1 < d.month then ⟨d.year, d.month - 1, monthLen (isLeap d.year) (d.month - 1)⟩
  else ⟨d.year - 1, 12, 31⟩

def dateOfDays : Nat → YMD
  | 0 => ⟨1970, 1, 1⟩
  | n + 1 => nextDate (dateOfDays n)

def dateOfDaysNeg : Nat → YMD
  | 0 => ⟨1970, 1, 1⟩
  | n + 1 => prevDate (dateOfDaysNeg n)

def dateOfDaysInt (z : Int) : YMD :=
  if 0 ≤ z then dateOfDays z.toNat else dateOfDaysNeg (-z).toNat

def monthDaysBefore (leap : Bool) : Nat → Nat
  | 0 => 0
  | 1 => 0
  | m + 2 => monthDaysBefore leap (m + 1) + monthLen leap (m + 1)

def leapsBefore (y : Int) : Int := (y - 1) / 4 - (y - 1) / 100 + (y - 1) / 400

def daysOfDate (d : YMD) : Int :=
  365 * (d.year - 1970) + (leapsBefore d.year - 477) +
    (monthDaysBefore (isLeap d.year) d.month : Int) + ((d.day : Int) - 1)

def validDate (d : YMD) : Prop :=
  1 ≤ d.month ∧ d.month ≤ 12 ∧ 1 ≤ d.day ∧ d.day ≤ monthLen (isLeap d.year) d.month

theorem isLeap_iff (y : Int) :
    isLeap y = true ↔ ((y % 4 = 0 ∧ y % 100 ≠ 0) ∨ y % 400 = 0) := by
  simp [isLeap, Bool.or_eq_true, Bool.and_eq_true, beq_iff_eq, bne_iff_ne]

theorem leapsBefore_succ_leap (y : Int) (h : isLeap y = true) :
    leapsBefore (y + 1) = leapsBefore y + 1 := by
  have hc := (isLeap_iff y).1 h
  unfold leapsBefore
  omega

theorem leapsBefore_succ_nonleap (y : Int) (h : isLeap y = false) :
    leapsBefore (y + 1) = leapsBefore y := by
  have hc : ¬ ((y % 4 = 0 ∧ y % 100 ≠ 0) ∨ y % 400 = 0) := by
    intro hx
    rw [(isLeap_iff y).2 hx] at h
    exact absurd h (by decide)
  unfold leapsBefore
  omega

theorem monthDaysBefore_succ (leap : Bool) (m : Nat) (h1 : 1 ≤ m) :
    monthDaysBefore leap (m + 1) = monthDaysBefore leap m + monthLen leap m := by
  match m, h1 with
  | m + 1, _ => rfl

theorem monthLen_pos (leap : Bool) (m : Nat) : 1 ≤ monthLen leap m := by
  unfold monthLen
  split
  · split <;> omega
  · split <;> omega

theorem nextDate_valid (d : YMD) (hv : validDate d) : validDate (nextDate d) := by
  obtain ⟨y, m, dd⟩ := d
  simp only [validDate] at hv
  obtain ⟨hm1, hm2, hd1, hd2⟩ := hv
  unfold nextDate validDate
  split
  · rename_i hlt
    dsimp only at hlt ⊢
    exact ⟨hm1, hm2, by omega, by omega⟩
  · rename_i hlt
    split
    · rename_i hm12
      try dsimp only at hlt hm12 ⊢
      refine ⟨by omega, by omega, le_refl 1, monthLen_pos _ _⟩
    · rename_i hm12
      try dsimp only at hlt hm12 ⊢
      refine ⟨by omega, by omega, le_refl 1, ?_⟩
      have h31 : monthLen (isLeap (y + 1)) 1 = 31 := by
        unfold monthLen; norm_num
      omega

theorem prevDate_valid (d : YMD) (hv : validDate d) : validDate (prevDate d) := by
  obtain ⟨y, m, dd⟩ := d
  simp only [validDate] at hv
  obtain ⟨hm1, hm2, hd1, hd2⟩ := hv
  unfold prevDate validDate
  split
  · rename_i hgt
    dsimp only at hgt ⊢
    exact ⟨hm1, hm2, by omega, by omega⟩
  · rename_i hgt
    split
    · rename_i hm1'
      try dsimp only at hgt hm1' ⊢
      refine ⟨by omega, by omega, monthLen_pos _ _, le_refl _⟩
    · rename_i hm1'
      try dsimp only at hgt hm1' ⊢
      refine ⟨by omega, by omega, by omega, ?_⟩
      have h31 : monthLen (isLeap (y - 1)) 12 = 31 := by
        unfold monthLen; norm_num
      omega

theorem daysOfDate_nextDate (d : YMD) (hv : validDate d) :
    daysOfDate (nextDate d) = daysOfDate d + 1 := by
  obtain ⟨y, m, dd⟩ := d
  simp only [validDate] at hv
  obtain ⟨hm1, hm2, hd1, hd2⟩ := hv
  unfold nextDate
  split
  · rename_i hlt
    unfold daysOfDate
    try dsimp only at hlt ⊢
    omega
  · rename_i hlt
    split
    · rename_i hm12
      try dsimp only at hlt hm12
      have hde : dd = monthLen (isLeap y) m := by omega
      have hmd := monthDaysBefore_succ (isLeap y) m hm1
      unfold daysOfDate
      dsimp only
      omega
    · rename_i hm12
      try dsimp only at hm12 hlt
      have hm : m = 12 := by omega
      have hml12 : monthLen (isLeap y) 12 = 31 := by
        unfold monthLen; norm_num
      have hde : dd = 31 := by rw [hm] at hd2 hlt; omega
      have hmdb1 : ∀ l : Bool, monthDaysBefore l 1 = 0 := fun l => rfl
      unfold daysOfDate
      dsimp only
      subst hm hde
      rw [hmdb1]
      rcases h : isLeap y with _ | _
      · have hlb := leapsBefore_succ_nonleap y h
        have c334 : monthDaysBefore false 12 = 334 := rfl
        omega
      · have hlb := leapsBefore_succ_leap y h
        have c335 : monthDaysBefore true 12 = 335 := rfl
        omega

theorem daysOfDate_prevDate (d : YMD) (hv : validDate d) :
    daysOfDate (prevDate d) = daysOfDate d - 1 := by
  obtain ⟨y, m, dd⟩ := d
  simp only [validDate] at hv
  obtain ⟨hm1, hm2, hd1, hd2⟩ := hv
  unfold prevDate
  split
  · rename_i hgt
    unfold daysOfDate
    try dsimp only at hgt ⊢
    omega
  · rename_i hgt
    split
    · rename_i hm1'
      try dsimp only at hgt hm1'
      have hdd : dd = 1 := by omega
      have hmd := monthDaysBefore_succ (isLeap y) (m - 1) (by omega)
      rw [show m - 1 + 1 = m from by omega] at hmd
      unfold daysOfDate
      dsimp only
      omega
    · rename_i hm1'
      try dsimp only at hgt hm1'
      have hm : m = 1 := by omega
      have hdd : dd = 1 := by omega
      have hmdb1 : ∀ l : Bool, monthDaysBefore l 1 = 0 := fun l => rfl
      unfold daysOfDate
      dsimp only
      subst hm hdd
      rw [hmdb1]
      rcases h : isLeap (y - 1) with _ | _
      · have hlb := leapsBefore_succ_nonleap (y - 1) h
        rw [show y - 1 + 1 = y from by ring] at hlb
        have c334 : monthDaysBefore false 12 = 334 := rfl
        omega
      · have hlb := leapsBefore_succ_leap (y - 1) h
        rw [show y - 1 + 1 = y from by ring] at hlb
        have c335 : monthDaysBefore true 12 = 335 := rfl
        omega

theorem dateOfDays_spec : ∀ n : Nat,
    daysOfDate (dateOfDays n) = n ∧ validDate (dateOfDays n) := by
  intro n
  induction n with
  | zero =>
    refine ⟨by decide, ?_⟩
    show validDate ⟨1970, 1, 1⟩
    unfold validDate
    decide
  | succ n ih =>
    obtain ⟨hval, hv⟩ := ih
    refine ⟨?_, nextDate_valid _ hv⟩
    show daysOfDate (nextDate (dateOfDays n)) = (n : Int) + 1
    rw [daysOfDate_nextDate _ hv, hval]

theorem dateOfDaysNeg_spec : ∀ n : Nat,
    daysOfDate (dateOfDaysNeg n) = -(n : Int) ∧ validDate (dateOfDaysNeg n) := by
  intro n
  induction n with
  | zero =>
    refine ⟨by decide, ?_⟩
    show validDate ⟨1970, 1, 1⟩
    unfold validDate
    decide
  | succ n ih =>
    obtain ⟨hval, hv⟩ := ih
    refine ⟨?_, prevDate_valid _ hv⟩
    show daysOfDate (prevDate (dateOfDaysNeg n)) = -((n : Int) + 1)
    rw [daysOfDate_prevDate _ hv, hval]
    omega

theorem dateOfDaysInt_spec (z : Int) :
    daysOfDate (dateOfDaysInt z) = z ∧ validDate (dateOfDaysInt z) := by
  unfold dateOfDaysInt
  split
  · rename_i hz
    obtain ⟨hval, hv⟩ := dateOfDays_spec z.toNat
    refine ⟨?_, hv⟩
    rw [hval]
    omega
  · rename_i hz
    obtain ⟨hval, hv⟩ := dateOfDaysNeg_spec (-z).toNat
    refine ⟨?_, hv⟩
    rw [hval]
    omega
def digitVal (c : Char) : Nat := c.toNat - 48

def isDig (c : Char) : Bool := 48 ≤ c.toNat && c.toNat ≤ 57

def valDigits (cs : List Char) : Nat := cs.foldl (fun a c => 10 * a + digitVal c) 0

def digitsAux : Nat → Nat → List Char
  | 0, _ => []
  | fuel + 1, n =>
    if n < 10 then [Nat.digitChar n]
    else digitsAux fuel (n / 10) ++ [Nat.digitChar (n % 10)]

def digitsOf (n : Nat) : List Char := digitsAux (n + 1) n

def padDigits (w n : Nat) : List Char :=
  List.replicate (w - (digitsOf n).length) '0' ++ digitsOf n

theorem valDigits_append_digit (xs : List Char) (c : Char) :
    valDigits (xs ++ [c]) = 10 * valDigits xs + digitVal c := by
  unfold valDigits
  rw [List.foldl_append]
  rfl

theorem digitChar_val : ∀ n : Nat, n < 10 →
    digitVal (Nat.digitChar n) = n ∧ isDig (Nat.digitChar n) = true := by
  decide

theorem digitsAux_spec : ∀ fuel n : Nat, n < 10 ^ (fuel + 1) →
    valDigits (digitsAux (fuel + 1) n) = n ∧
    (∀ c ∈ digitsAux (fuel + 1) n, isDig c = true) ∧ digitsAux (fuel + 1) n ≠ [] := by
  intro fuel
  induction fuel with
  | zero =>
    intro n hn
    have h10 : n < 10 := by norm_num at hn; exact hn
    simp only [digitsAux, if_pos h10]
    obtain ⟨hv, hd⟩ := digitChar_val n h10
    refine ⟨?_, ?_, by simp⟩
    · show 10 * 0 + digitVal (Nat.digitChar n) = n
      omega
    · intro c hc
      simp at hc
      rw [hc]
      exact hd
  | succ fuel ih =>
    intro n hn
    by_cases h10 : n < 10
    · simp only [digitsAux, if_pos h10]
      obtain ⟨hv, hd⟩ := digitChar_val n h10
      refine ⟨?_, ?_, by simp⟩
      · show 10 * 0 + digitVal (Nat.digitChar n) = n
        omega
      · intro c hc
        simp at hc
        rw [hc]
        exact hd
    · have hdiv : n / 10 < 10 ^ (fuel + 1) := by
        have hp : (10 : Nat) ^ (fuel + 2) = 10 ^ (fuel + 1) * 10 := by ring
        rw [hp] at hn
        exact (Nat.div_lt_iff_lt_mul (by norm_num)).2 hn
      obtain ⟨ihv, ihd, ihne⟩ := ih (n / 10) hdiv
      have hm10 : n % 10 < 10 := Nat.mod_lt _ (by norm_num)
      obtain ⟨hv2, hd2⟩ := digitChar_val (n % 10) hm10
      have heq : digitsAux (fuel + 1 + 1) n =
          digitsAux (fuel + 1) (n / 10) ++ [Nat.digitChar (n % 10)] := by
        conv_lhs => rw [digitsAux]
        rw [if_neg h10]
      rw [heq]
      refine ⟨?_, ?_, by simp⟩
      · rw [valDigits_append_digit, ihv, hv2]
        omega
      · intro c hc
        rcases List.mem_append.1 hc with h | h
        · exact ihd c h
        · simp at h
          rw [h]
          exact hd2

theorem digitsOf_spec (n : Nat) :
    valDigits (digitsOf n) = n ∧
    (∀ c ∈ digitsOf n, isDig c = true) ∧ digitsOf n ≠ [] := by
  have hlt : n < 10 ^ (n + 1) :=
    lt_of_lt_of_le (Nat.lt_pow_self (by norm_num) n)
      (Nat.pow_le_pow_right (by norm_num) (Nat.le_succ n))
  exact digitsAux_spec n n hlt

theorem valDigits_replicate_zero (k : Nat) (xs : List Char) :
    valDigits (List.replicate k '0' ++ xs) = valDigits xs := by
  induction k with
  | zero => rfl
  | succ k ih =>
    rw [List.replicate_succ, List.cons_append]
    show valDigits (List.replicate k '0' ++ xs) = valDigits xs
    exact ih

theorem padDigits_spec (w n : Nat) :
    valDigits (padDigits w n) = n ∧
    (∀ c ∈ padDigits w n, isDig c = true) ∧ padDigits w n ≠ [] := by
  obtain ⟨hv, hd, hne⟩ := digitsOf_spec n
  unfold padDigits
  refine ⟨by rw [valDigits_replicate_zero, hv], ?_, ?_⟩
  · intro c hc
    rcases List.mem_append.1 hc with h | h
    · rw [List.eq_of_mem_replicate h]
      decide
    · exact hd c h
  · intro hx
    rcases List.append_eq_nil.1 hx with ⟨_, h2⟩
    exact hne h2

theorem takeWhile_append_all (p : Char → Bool) (xs ys : List Char)
    (h : ∀ c ∈ xs, p c = true) :
    List.takeWhile p (xs ++ ys) = xs ++ List.takeWhile p ys := by
  induction xs with
  | nil => simp
  | cons c cs ih =>
    rw [List.cons_append, List.takeWhile_cons_of_pos (h c (by simp)), List.cons_append,
      ih (fun c hc => h c (by simp [hc]))]

theorem dropWhile_append_all (p : Char → Bool) (xs ys : List Char)
    (h : ∀ c ∈ xs, p c = true) :
    List.dropWhile p (xs ++ ys) = List.dropWhile p ys := by
  induction xs with
  | nil => simp
  | cons c cs ih =>
    rw [List.cons_append, List.dropWhile_cons_of_pos (h c (by simp)),
      ih (fun c hc => h c (by simp [hc]))]

def readNat (cs : List Char) : Nat × List Char :=
  (valDigits (List.takeWhile isDig cs), List.dropWhile isDig cs)

def readNatSep (sep : Char) (cs : List Char) : Option (Nat × List Char) :=
  match readNat cs with
  | (n, c :: rest) => if c = sep then some (n, rest) else none
  | (_, []) => none

theorem readNat_pad (w n : Nat) (c : Char) (rest : List Char) (hc : isDig c = false) :
    readNat (padDigits w n ++ (c :: rest)) = (n, c :: rest) := by
  obtain ⟨hval, hdig, hne⟩ := padDigits_spec w n
  unfold readNat
  rw [takeWhile_append_all _ _ _ hdig, dropWhile_append_all _ _ _ hdig,
    List.takeWhile_cons_of_neg (by simp [hc]), List.dropWhile_cons_of_neg (by simp [hc]),
    List.append_nil, hval]

theorem readNatSep_pad (sep : Char) (w n : Nat) (rest : List Char)
    (hs : isDig sep = false) :
    readNatSep sep (padDigits w n ++ (sep :: rest)) = some (n, rest) := by
  unfold readNatSep
  rw [readNat_pad w n sep rest hs]
  simp


/-- A numeric field of width `w` and value `n` followed by a separator
and the rest of the string. -/
def withSep (w n : Nat) (sep : Char) (rest : List Char) : List Char :=
  padDigits w n ++ (sep :: rest)

theorem readNatSep_withSep (sep : Char) (w n : Nat) (rest : List Char)
    (hs : isDig sep = false) :
    readNatSep sep (withSep w n sep rest) = some (n, rest) :=
  readNatSep_pad sep w n rest hs

/-- Split an optional leading sign off an ISO-8601 string (the expanded
`+YYYYYY` / `-YYYYYY` year forms). -/
def signSplit : List Char → Int × List Char
  | '+' :: tail => (1, tail)
  | '-' :: tail => (-1, tail)
  | cs => (1, cs)

theorem signSplit_digit (c : Char) (rest : List Char) (h : isDig c = true) :
    signSplit (c :: rest) = (1, c :: rest) := by
  unfold signSplit
  split
  · rename_i heq
    injection heq with h1 h2
    rw [h1] at h
    exact absurd h (by decide)
  · rename_i heq
    injection heq with h1 h2
    rw [h1] at h
    exact absurd h (by decide)
  · rfl

/-- The character list of the ISO-8601 UTC representation produced by
`Date.prototype.toISOString`: `YYYY-MM-DDTHH:mm:ss.sssZ`, with the year
expanded to `+YYYYYY` when it exceeds 9999 and to `-YYYYYY` when it is
negative. -/
def isoChars (y : Int) (mo d h mi sec ms3 : Nat) : List Char :=
  (if 9999 < y then '+' :: padDigits 6 y.toNat
   else if y < 0 then '-' :: padDigits 6 (-y).toNat
   else padDigits 4 y.toNat) ++
    ('-' :: withSep 2 mo '-' (withSep 2 d 'T' (withSep 2 h ':' (withSep 2 mi ':'
      (withSep 2 sec '.' (withSep 3 ms3 'Z' []))))))

def jsMaxTime : Int := 8640000000000000

/-- Model of `new Date(n).toISOString()` for an integer time value `n`
(its fields per ECMA-262: floor day number and nonnegative
time-within-day); `none` models the `RangeError` thrown on a time value
outside ±8.64e15 milliseconds. -/
def toISOString (n : Int) : Option String :=
  if -jsMaxTime ≤ n ∧ n ≤ jsMaxTime then
    some ⟨isoChars (dateOfDaysInt (n / 86400000)).year (dateOfDaysInt (n / 86400000)).month
      (dateOfDaysInt (n / 86400000)).day ((n % 86400000).toNat / 3600000)
      ((n % 86400000).toNat % 3600000 / 60000) ((n % 86400000).toNat % 60000 / 1000)
      ((n % 86400000).toNat % 1000)⟩
  else none

/-- Modelled from the spec: the "re-wrapping" direction of the
round-trip property — no source function performs it, so it is the
inverse reading of the ISO-8601 string back to its (signed)
epoch-millisecond value, as the spec's "unwrapping then re-wrapping
recovers the original millisecond value" requires. -/
def msOfIsoSigned (sgn : Int) (cs : List Char) : Option Int :=
  (readNatSep '-' cs).bind fun p1 =>
  (readNatSep '-' p1.2).bind fun p2 =>
  (readNatSep 'T' p2.2).bind fun p3 =>
  (readNatSep ':' p3.2).bind fun p4 =>
  (readNatSep ':' p4.2).bind fun p5 =>
  (readNatSep '.' p5.2).bind fun p6 =>
  (readNatSep 'Z' p6.2).bind fun p7 =>
  if p7.2 = [] then
    some (daysOfDate ⟨sgn * (p1.1 : Int), p2.1, p3.1⟩ * 86400000 +
      ((p4.1 : Int) * 3600000 + (p5.1 : Int) * 60000 + (p6.1 : Int) * 1000 + (p7.1 : Int)))
  else none

/-- Modelled from the spec: parse an ISO-8601 UTC string back to its
epoch-millisecond value (the re-wrapping direction). -/
def msOfIsoString (s : String) : Option Int :=
  msOfIsoSigned (signSplit s.data).1 (signSplit s.data).2

theorem msOfIsoSigned_parse (sgn : Int) (w yv mo d h mi sec ms3 : Nat) :
    msOfIsoSigned sgn (padDigits w yv ++
        ('-' :: withSep 2 mo '-' (withSep 2 d 'T' (withSep 2 h ':' (withSep 2 mi ':'
          (withSep 2 sec '.' (withSep 3 ms3 'Z' []))))))) =
      some (daysOfDate ⟨sgn * (yv : Int), mo, d⟩ * 86400000 +
        ((h : Int) * 3600000 + (mi : Int) * 60000 + (sec : Int) * 1000 + (ms3 : Int))) := by
  unfold msOfIsoSigned
  rw [readNatSep_pad '-' w yv _ (by decide), Option.some_bind]
  rw [readNatSep_withSep '-' 2 mo _ (by decide), Option.some_bind]
  rw [readNatSep_withSep 'T' 2 d _ (by decide), Option.some_bind]
  rw [readNatSep_withSep ':' 2 h _ (by decide), Option.some_bind]
  rw [readNatSep_withSep ':' 2 mi _ (by decide), Option.some_bind]
  rw [readNatSep_withSep '.' 2 sec _ (by decide), Option.some_bind]
  rw [readNatSep_withSep 'Z' 3 ms3 _ (by decide), Option.some_bind]
  rfl

theorem msOfIsoString_isoChars (y : Int) (mo d h mi sec ms3 : Nat) :
    msOfIsoString ⟨isoChars y mo d h mi sec ms3⟩ =
      some (daysOfDate ⟨y, mo, d⟩ * 86400000 +
        ((h : Int) * 3600000 + (mi : Int) * 60000 + (sec : Int) * 1000 + (ms3 : Int))) := by
  unfold msOfIsoString
  rw [show (⟨isoChars y mo d h mi sec ms3⟩ : String).data = isoChars y mo d h mi sec ms3 from rfl]
  unfold isoChars
  by_cases hy1 : 9999 < y
  · rw [if_pos hy1, List.cons_append]
    rw [show signSplit ('+' :: (padDigits 6 y.toNat ++
        ('-' :: withSep 2 mo '-' (withSep 2 d 'T' (withSep 2 h ':' (withSep 2 mi ':'
          (withSep 2 sec '.' (withSep 3 ms3 'Z' [])))))))) =
      (1, padDigits 6 y.toNat ++
        ('-' :: withSep 2 mo '-' (withSep 2 d 'T' (withSep 2 h ':' (withSep 2 mi ':'
          (withSep 2 sec '.' (withSep 3 ms3 'Z' []))))))) from rfl]
    rw [msOfIsoSigned_parse 1 6 y.toNat mo d h mi sec ms3]
    rw [show (1 : Int) * ((y.toNat : Nat) : Int) = y from by omega]
  · rw [if_neg hy1]
    by_cases hy2 : y < 0
    · rw [if_pos hy2, List.cons_append]
      rw [show signSplit ('-' :: (padDigits 6 (-y).toNat ++
          ('-' :: withSep 2 mo '-' (withSep 2 d 'T' (withSep 2 h ':' (withSep 2 mi ':'
            (withSep 2 sec '.' (withSep 3 ms3 'Z' [])))))))) =
        (-1, padDigits 6 (-y).toNat ++
          ('-' :: withSep 2 mo '-' (withSep 2 d 'T' (withSep 2 h ':' (withSep 2 mi ':'
            (withSep 2 sec '.' (withSep 3 ms3 'Z' []))))))) from rfl]
      rw [msOfIsoSigned_parse (-1) 6 (-y).toNat mo d h mi sec ms3]
      rw [show (-1 : Int) * (((-y).toNat : Nat) : Int) = y from by omega]
    · rw [if_neg hy2]
      obtain ⟨hv, hdig, hne⟩ := padDigits_spec 4 y.toNat
      cases hpd : padDigits 4 y.toNat with
      | nil => exact absurd hpd hne
      | cons c t =>
        have hcd : isDig c = true := hdig c (by rw [hpd]; simp)
        rw [List.cons_append, signSplit_digit c _ hcd]
        rw [show ((1 : Int),
            c :: (t ++ ('-' :: withSep 2 mo '-' (withSep 2 d 'T' (withSep 2 h ':'
              (withSep 2 mi ':' (withSep 2 sec '.' (withSep 3 ms3 'Z' [])))))))).1 = (1 : Int)
          from rfl]
        rw [show ((1 : Int),
            c :: (t ++ ('-' :: withSep 2 mo '-' (withSep 2 d 'T' (withSep 2 h ':'
              (withSep 2 mi ':' (withSep 2 sec '.' (withSep 3 ms3 'Z' [])))))))).2 =
            c :: (t ++ ('-' :: withSep 2 mo '-' (withSep 2 d 'T' (withSep 2 h ':'
              (withSep 2 mi ':' (withSep 2 sec '.' (withSep 3 ms3 'Z' []))))))) from rfl]
        rw [← List.cons_append, ← hpd]
        rw [msOfIsoSigned_parse 1 4 y.toNat mo d h mi sec ms3]
        rw [show (1 : Int) * ((y.toNat : Nat) : Int) = y from by omega]

theorem toISOString_roundtrip (n : Int) (hlo : -jsMaxTime ≤ n) (hhi : n ≤ jsMaxTime) :
    (toISOString n).bind msOfIsoString = some n := by
  unfold toISOString
  rw [if_pos ⟨hlo, hhi⟩, Option.some_bind, msOfIsoString_isoChars]
  have heta : (⟨(dateOfDaysInt (n / 86400000)).year, (dateOfDaysInt (n / 86400000)).month,
      (dateOfDaysInt (n / 86400000)).day⟩ : YMD) = dateOfDaysInt (n / 86400000) := rfl
  rw [heta, (dateOfDaysInt_spec (n / 86400000)).1]
  congr 1
  omega

/-- The characters of an optionally signed decimal integer. -/
def isNumChar (c : Char) : Bool := isDig c || c == '-' || c == '+'

/-- Model of JavaScript `Number(s)` on the strings that reach it here:
the empty string evaluates to 0, an optionally signed string of decimal
digits to its value (exact below 2^53, which covers every valid time
value, so `valDigits` is faithful); any other input — including a bare
sign — is treated as NaN (`none`), which makes the subsequent
`new Date(...)` invalid. Non-decimal numeric syntaxes (hexadecimal,
exponents, `Infinity`, surrounding whitespace) never occur inside a
wrapped date and are out of scope. -/
def jsNumber (s : String) : Option Int :=
  match s.data with
  | [] => some 0
  | '-' :: ds =>
    if ds ≠ [] ∧ ∀ c ∈ ds, isDig c = true then some (-(valDigits ds : Int)) else none
  | '+' :: ds =>
    if ds ≠ [] ∧ ∀ c ∈ ds, isDig c = true then some ((valDigits ds : Int)) else none
  | ds =>
    if ∀ c ∈ ds, isDig c = true then some ((valDigits ds : Int)) else none

/-- The wrapped-date normalization of term-set-list lines 121/123:
strip the `/Date(` prefix and `)/` suffix by first-occurrence
replacement, read the milliseconds, convert to ISO-8601. `none` models
the RangeError thrown by `toISOString` on an invalid or out-of-range
date. -/
def normalizeDateField (s : String) : Option String :=
  (jsNumber (jsReplace (jsReplace s "/Date(" "") ")/" "")).bind toISOString

theorem unwrapDate_digits (ms : String) (hdig : ∀ c ∈ ms.data, isNumChar c = true) :
    jsReplace (jsReplace ("/Date(" ++ ms ++ ")/") "/Date(" "") ")/" "" = ms := by
  have hne : ∀ c ∈ ms.data, c ≠ ')' := by
    intro c hc he
    have := hdig c hc
    rw [he] at this
    exact absurd this (by decide)
  unfold jsReplace
  have hdata : ("/Date(" ++ ms ++ ")/" : String).data =
      ['/', 'D', 'a', 't', 'e', '('] ++ (ms.data ++ [')', '/']) := by
    simp [String.data_append]
  rw [hdata]
  rw [show ("/Date(" : String).data = ['/', 'D', 'a', 't', 'e', '('] from rfl,
    show ("" : String).data = [] from rfl,
    show (")/" : String).data = [')', '/'] from rfl]
  rw [replFirst_at_start ['/', 'D', 'a', 't', 'e', '('] (ms.data ++ [')', '/']) [] (by simp)]
  simp only [List.nil_append]
  rw [replFirst_close_suffix ms.data hne]

end CliM365

namespace CliM365

/-- **C4 (amended).** For every wrapped-date string `/Date(<ms>)/` whose
milliseconds `<ms>` are an optionally signed decimal integer evaluating
(as JavaScript `Number`) to a value `v` within the JavaScript time range
(`|v| ≤ 8640000000000000`), unwrapping (stripping the `/Date(` prefix
and `)/` suffix, parsing the milliseconds, converting to ISO-8601) and
then re-wrapping (reading the ISO-8601 string back to epoch
milliseconds) recovers the original millisecond value `v`. Outside that
range `toISOString` throws a RangeError instead (see the
counterexample). -/
theorem date_unwrap_rewrap_roundtrip (ms : String) (v : Int)
    (hchars : ∀ c ∈ ms.data, isNumChar c = true)
    (hnum : jsNumber ms = some v)
    (hlo : -jsMaxTime ≤ v) (hhi : v ≤ jsMaxTime) :
    (normalizeDateField ("/Date(" ++ ms ++ ")/")).bind msOfIsoString = some v := by
  unfold normalizeDateField
  rw [unwrapDate_digits ms hchars, hnum, Option.some_bind]
  exact toISOString_roundtrip v hlo hhi

/-- Witness for the amended C4 at `/Date(-1)/` (one millisecond before
the epoch). -/
theorem date_unwrap_rewrap_roundtrip_witness :
    (normalizeDateField ("/Date(" ++ "-1" ++ ")/")).bind msOfIsoString = some (-1) :=
  date_unwrap_rewrap_roundtrip "-1" (-1) (by decide) (by decide) (by decide) (by decide)

/-- **C4 counterexample.** The claim as stated fails for the wrapped
date `/Date(8640000000000001)/` (one millisecond past the largest
JavaScript time value): the conversion throws a RangeError — modelled as
`none` — so no millisecond value is recovered at all. -/
theorem date_unwrap_rewrap_counterexample :
    normalizeDateField "/Date(8640000000000001)/" = none ∧
      (normalizeDateField "/Date(8640000000000001)/").bind msOfIsoString ≠
        some 8640000000000001 := by
  constructor
  · decide
  · decide

end CliM365

namespace CliM365

/-! ## The action-batch encoder (request bodies)

Term-set-list lines 101 and 108, term-group-add lines 238, 260 and 283
build the `ProcessQuery` XML bodies by template concatenation. -/

/-- JavaScript truthiness of an optional string option
(`if (args.options.x)`): absent and empty are falsy. -/
def strOptTruthy : Option String → Bool
  | none => false
  | some s => s != ""

/-- Template interpolation of an optional string: an undefined value
interpolates as the text `undefined`. -/
def templateStr : Option String → String
  | none => "undefined"
  | some s => s

/-- Modelled from the spec: `formatting.escapeXml` (a utility that is
not under src/) — "the encoder must escape all string parameter values
for XML safety (ampersand, angle brackets, quotes)": character-wise
replacement by the standard XML entities (both quote characters). -/
def escapeXmlChar (c : Char) : List Char :=
  if c = '&' then ['&', 'a', 'm', 'p', ';']
  else if c = '<' then ['&', 'l', 't', ';']
  else if c = '>' then ['&', 'g', 't', ';']
  else if c = '"' then ['&', 'q', 'u', 'o', 't', ';']
  else if c = '\'' then ['&', 'a', 'p', 'o', 's', ';']
  else [c]

/-- Modelled from the spec: XML-escape a whole string. -/
def escapeXml (s : String) : String :=
  ⟨s.data.flatMap escapeXmlChar⟩

/-- `formatting.escapeXml` applied to an optional option value, as
interpolated into the template (undefined stays falsy and interpolates
as `undefined`). -/
def escapeXmlOpt : Option String → String
  | none => "undefined"
  | some s => escapeXml s

/-- The common `<Request ...>` header of every `ProcessQuery` body. -/
def requestPrefixData (app : String) : String :=
  "<Request AddExpandoFieldTypeSuffix=\"true\" SchemaVersion=\"15.0.0.0\" LibraryVersion=\"16.0.0.0\" ApplicationName=\"" ++ app ++ "\" xmlns=\"http://schemas.microsoft.com/sharepoint/clientquery/2009\">"

/-- A `Guid`-typed parameter: wrapped in brace-delimited literal form. -/
def xmlGuidParam (g : String) : String :=
  "<Parameter Type=\"Guid\">\x7b" ++ g ++ "\x7d</Parameter>"

/-- A `String`-typed parameter (the argument is already escaped). -/
def xmlStringParam (s : String) : String :=
  "<Parameter Type=\"String\">" ++ s ++ "</Parameter>"

/-- The options of the term-set list command (term-set-list lines 16-20). -/
structure TermSetListOptions where
  webUrl : Option String
  termGroupId : Option String
  termGroupName : Option String

/-- Term-set-list line 101: the group-lookup `<Method>` fragment —
`GetById` with a brace-wrapped Guid parameter when `termGroupId` was
supplied, otherwise `GetByName` with an XML-escaped String parameter. -/
def termSetListQuery (opts : TermSetListOptions) : String :=
  if strOptTruthy opts.termGroupId then
    "<Method Id=\"62\" ParentId=\"60\" Name=\"GetById\"><Parameters>" ++
      xmlGuidParam (templateStr opts.termGroupId) ++ "</Parameters></Method>"
  else
    "<Method Id=\"62\" ParentId=\"60\" Name=\"GetByName\"><Parameters>" ++
      xmlStringParam (escapeXmlOpt opts.termGroupName) ++ "</Parameters></Method>"

/-- Term-set-list line 108: the full `ProcessQuery` request body. -/
def termSetListRequestData (app : String) (opts : TermSetListOptions) : String :=
  requestPrefixData app ++ "<Actions><ObjectPath Id=\"55\" ObjectPathId=\"54\" /><ObjectIdentityQuery Id=\"56\" ObjectPathId=\"54\" /><ObjectPath Id=\"58\" ObjectPathId=\"57\" /><ObjectIdentityQuery Id=\"59\" ObjectPathId=\"57\" /><ObjectPath Id=\"61\" ObjectPathId=\"60\" /><ObjectPath Id=\"63\" ObjectPathId=\"62\" /><ObjectIdentityQuery Id=\"64\" ObjectPathId=\"62\" /><ObjectPath Id=\"66\" ObjectPathId=\"65\" /><Query Id=\"67\" ObjectPathId=\"65\"><Query SelectAllProperties=\"false\"><Properties /></Query><ChildItemQuery SelectAllProperties=\"true\"><Properties><Property Name=\"Name\" ScalarProperty=\"true\" /><Property Name=\"Id\" ScalarProperty=\"true\" /></Properties></ChildItemQuery></Query></Actions><ObjectPaths><StaticMethod Id=\"54\" Name=\"GetTaxonomySession\" TypeId=\"\x7b981cbc68-9edc-4f8d-872f-71146fcbb84f\x7d\" /><Method Id=\"57\" ParentId=\"54\" Name=\"GetDefaultSiteCollectionTermStore\" /><Property Id=\"60\" ParentId=\"57\" Name=\"Groups\" />" ++
    termSetListQuery opts ++
    "<Property Id=\"65\" ParentId=\"62\" Name=\"TermSets\" /></ObjectPaths></Request>"

/-- Term-group-add line 238: the term-store query request body. -/
def termGroupAddStoreQueryData (app : String) : String :=
  requestPrefixData app ++ "<Actions><ObjectPath Id=\"4\" ObjectPathId=\"3\" /><ObjectIdentityQuery Id=\"5\" ObjectPathId=\"3\" /><ObjectPath Id=\"7\" ObjectPathId=\"6\" /><ObjectIdentityQuery Id=\"8\" ObjectPathId=\"6\" /><Query Id=\"9\" ObjectPathId=\"6\"><Query SelectAllProperties=\"true\"><Properties /></Query></Query></Actions><ObjectPaths><StaticMethod Id=\"3\" Name=\"GetTaxonomySession\" TypeId=\"\x7b981cbc68-9edc-4f8d-872f-71146fcbb84f\x7d\" /><Method Id=\"6\" ParentId=\"3\" Name=\"GetDefaultSiteCollectionTermStore\" /></ObjectPaths></Request>"

/-- Term-group-add line 260: the `CreateGroup` request body (`name` is
the raw option value, escaped here; `termGroupId` is the supplied or
generated GUID; `storeIdentity` is the interpolated
`termStore._ObjectIdentity_`). -/
def termGroupAddCreateData (app name termGroupId storeIdentity : String) : String :=
  requestPrefixData app ++ "<Actions><ObjectPath Id=\"14\" ObjectPathId=\"13\" /><ObjectIdentityQuery Id=\"15\" ObjectPathId=\"13\" /><Query Id=\"16\" ObjectPathId=\"13\"><Query SelectAllProperties=\"false\"><Properties><Property Name=\"Name\" ScalarProperty=\"true\" /><Property Name=\"Id\" ScalarProperty=\"true\" /><Property Name=\"Description\" ScalarProperty=\"true\" /></Properties></Query></Query></Actions><ObjectPaths><Method Id=\"13\" ParentId=\"6\" Name=\"CreateGroup\"><Parameters>" ++
    xmlStringParam (escapeXml name) ++ xmlGuidParam termGroupId ++
    "</Parameters></Method><Identity Id=\"6\" Name=\"" ++ storeIdentity ++ "\" /></ObjectPaths></Request>"

/-- Term-group-add line 283: the `SetProperty` (Description) request
body (`description` is the raw option value; `groupIdentity` is the
interpolated `termGroup._ObjectIdentity_`). -/
def termGroupAddSetDescriptionData (app description groupIdentity : String) : String :=
  requestPrefixData app ++ "<Actions><SetProperty Id=\"51\" ObjectPathId=\"45\" Name=\"Description\">" ++
    xmlStringParam (escapeXml description) ++
    "</SetProperty></Actions><ObjectPaths><Identity Id=\"45\" Name=\"" ++ groupIdentity ++ "\" /></ObjectPaths></Request>"

/-- Does `pat` occur as a contiguous substring? -/
def hasSubL (pat : List Char) : List Char → Bool
  | [] => pat.isEmpty
  | c :: cs => matchAt pat (c :: cs) || hasSubL pat cs

/-- String-level substring test. -/
def containsSub (s pat : String) : Bool := hasSubL pat.data s.data

theorem hasSubL_of_split (pre pat post text : List Char)
    (h : text = pre ++ (pat ++ post)) : hasSubL pat text = true := by
  subst h
  induction pre with
  | nil =>
    simp only [List.nil_append]
    have hm := matchAt_self_append pat post
    cases hp : pat ++ post with
    | nil =>
      obtain ⟨h1, _⟩ := List.append_eq_nil.1 hp
      subst h1
      rfl
    | cons c cs =>
      unfold hasSubL
      rw [hp] at hm
      rw [hm]
      simp
  | cons c pre ih =>
    rw [List.cons_append]
    unfold hasSubL
    rw [ih]
    simp

theorem containsSub_of_split (s pre pat post : String)
    (h : s.data = pre.data ++ (pat.data ++ post.data)) : containsSub s pat = true :=
  hasSubL_of_split pre.data pat.data post.data s.data h

/-- Is the character a hexadecimal digit? -/
def isHexDig (c : Char) : Bool :=
  ('0' ≤ c && c ≤ '9') || ('a' ≤ c && c ≤ 'f') || ('A' ≤ c && c ≤ 'F')

/-- Modelled from the spec: `validation.isValidGuid` (a utility that is
not under src/) — a GUID in canonical 8-4-4-4-12 hexadecimal form
("validation rejects invalid GUIDs"). -/
def isValidGuid (s : String) : Bool :=
  s.data.length == 36 &&
    (List.range 36).all fun i =>
      if i = 8 || i = 13 || i = 18 || i = 23 then s.data.getD i ' ' == '-'
      else isHexDig (s.data.getD i ' ')

/-- A valid GUID has 36 characters, so it is truthy as an option value. -/
theorem isValidGuid_truthy (g : String) (h : isValidGuid g = true) :
    strOptTruthy (some g) = true := by
  have hlen : g.data.length = 36 := by
    unfold isValidGuid at h
    rw [Bool.and_eq_true] at h
    simpa using h.1
  show (g != "") = true
  simp only [bne_iff_ne, ne_eq]
  intro he
  rw [he] at hlen
  simp at hlen

end CliM365

namespace CliM365

theorem matchAt_extend (pat xs ys : List Char) (h : matchAt pat xs = true) :
    matchAt pat (xs ++ ys) = true := by
  induction pat generalizing xs with
  | nil => rfl
  | cons p ps ih =>
    cases xs with
    | nil => simp [matchAt] at h
    | cons c cs =>
      rw [List.cons_append]
      unfold matchAt at h ⊢
      rw [Bool.and_eq_true] at h ⊢
      exact ⟨h.1, ih cs h.2⟩

theorem hasSubL_append_l (pat xs ys : List Char) (h : hasSubL pat xs = true) :
    hasSubL pat (xs ++ ys) = true := by
  induction xs with
  | nil =>
    have hpat : pat = [] := by
      unfold hasSubL at h
      simpa using h
    subst hpat
    cases ys with
    | nil => rfl
    | cons c cs => simp [hasSubL, matchAt]
  | cons c cs ih =>
    rw [List.cons_append]
    unfold hasSubL at h ⊢
    rw [Bool.or_eq_true] at h ⊢
    rcases h with h | h
    · exact Or.inl (matchAt_extend pat (c :: cs) ys h)
    · exact Or.inr (ih h)

theorem hasSubL_append_r (pat xs ys : List Char) (h : hasSubL pat ys = true) :
    hasSubL pat (xs ++ ys) = true := by
  induction xs with
  | nil => simpa using h
  | cons c cs ih =>
    rw [List.cons_append]
    unfold hasSubL
    rw [Bool.or_eq_true]
    exact Or.inr ih

theorem containsSub_append_left (a b pat : String) (h : containsSub a pat = true) :
    containsSub (a ++ b) pat = true := by
  unfold containsSub at h ⊢
  rw [String.data_append]
  exact hasSubL_append_l pat.data a.data b.data h

theorem containsSub_append_right (a b pat : String) (h : containsSub b pat = true) :
    containsSub (a ++ b) pat = true := by
  unfold containsSub at h ⊢
  rw [String.data_append]
  exact hasSubL_append_r pat.data a.data b.data h

theorem containsSub_refl (s : String) : containsSub s s = true :=
  hasSubL_of_split [] s.data [] s.data (by simp)

/-- The GetById branch of term-set-list line 101 embeds the Guid
parameter in brace-delimited literal form in the request body. -/
theorem termSetList_guid_embed (app g : String) (webUrl tgn : Option String)
    (ht : strOptTruthy (some g) = true) :
    containsSub (termSetListRequestData app ⟨webUrl, some g, tgn⟩)
      ("<Parameter Type=\"Guid\">\x7b" ++ g ++ "\x7d</Parameter>") = true := by
  unfold termSetListRequestData
  apply containsSub_append_left
  apply containsSub_append_right
  unfold termSetListQuery
  rw [if_pos ht]
  apply containsSub_append_left
  apply containsSub_append_right
  show containsSub (xmlGuidParam g) (xmlGuidParam g) = true
  exact containsSub_refl _

end CliM365

namespace CliM365

/-- **C6.** For every valid GUID `g` passed as `termGroupId` to the
term-set list command, the outgoing request body embeds the literal XML
fragment `<Parameter Type="Guid">{g}</Parameter>` (braces written
`\x7b`/`\x7d`); in particular for
`g = 11111111-1111-1111-1111-111111111111`. -/
theorem termSetList_embeds_guid_parameter (app g : String)
    (webUrl tgn : Option String) (hvalid : isValidGuid g = true) :
    containsSub (termSetListRequestData app ⟨webUrl, some g, tgn⟩)
      ("<Parameter Type=\"Guid\">\x7b" ++ g ++ "\x7d</Parameter>") = true ∧
    containsSub
      (termSetListRequestData app
        ⟨webUrl, some "11111111-1111-1111-1111-111111111111", tgn⟩)
      ("<Parameter Type=\"Guid\">\x7b11111111-1111-1111-1111-111111111111\x7d</Parameter>") = true := by
  constructor
  · exact termSetList_guid_embed app g webUrl tgn (isValidGuid_truthy g hvalid)
  · have h2 : isValidGuid "11111111-1111-1111-1111-111111111111" = true := by decide
    have := termSetList_guid_embed app "11111111-1111-1111-1111-111111111111" webUrl tgn
      (isValidGuid_truthy _ h2)
    exact this

/-- Witness for C6 at the GUID of the specification's scenario. -/
theorem termSetList_embeds_guid_parameter_witness :
    containsSub
      (termSetListRequestData "cli"
        ⟨some "https://contoso.sharepoint.com", some "11111111-1111-1111-1111-111111111111", none⟩)
      ("<Parameter Type=\"Guid\">\x7b" ++ "11111111-1111-1111-1111-111111111111" ++ "\x7d</Parameter>") = true ∧
    containsSub
      (termSetListRequestData "cli"
        ⟨some "https://contoso.sharepoint.com", some "11111111-1111-1111-1111-111111111111", none⟩)
      ("<Parameter Type=\"Guid\">\x7b11111111-1111-1111-1111-111111111111\x7d</Parameter>") = true :=
  termSetList_embeds_guid_parameter "cli" "11111111-1111-1111-1111-111111111111"
    (some "https://contoso.sharepoint.com") none (by decide)

/-- **C8.** The encoder escapes every string-typed parameter value for
XML safety before embedding it: for every input string containing an
ampersand, an angle bracket or a quote, supplied as `termGroupName`
(term-set-list line 101), `name` (term-group-add line 260) or
`description` (term-group-add line 283), the embedded parameter text is
the XML-escaped form of the input. -/
theorem encoder_escapes_string_parameters (s : String)
    (hs : ∃ c ∈ s.data, c = '&' ∨ c = '<' ∨ c = '>' ∨ c = '"' ∨ c = '\'')
    (app gid store gidentity : String) (webUrl : Option String) :
    containsSub (termSetListRequestData app ⟨webUrl, none, some s⟩)
      ("<Parameter Type=\"String\">" ++ escapeXml s ++ "</Parameter>") = true ∧
    containsSub (termGroupAddCreateData app s gid store)
      ("<Parameter Type=\"String\">" ++ escapeXml s ++ "</Parameter>") = true ∧
    containsSub (termGroupAddSetDescriptionData app s gidentity)
      ("<Parameter Type=\"String\">" ++ escapeXml s ++ "</Parameter>") = true := by
  refine ⟨?_, ?_, ?_⟩
  · unfold termSetListRequestData
    apply containsSub_append_left
    apply containsSub_append_right
    have hq : termSetListQuery ⟨webUrl, none, some s⟩ =
        "<Method Id=\"62\" ParentId=\"60\" Name=\"GetByName\"><Parameters>" ++
          xmlStringParam (escapeXmlOpt (some s)) ++ "</Parameters></Method>" := rfl
    rw [hq]
    apply containsSub_append_left
    apply containsSub_append_right
    show containsSub (xmlStringParam (escapeXml s)) (xmlStringParam (escapeXml s)) = true
    exact containsSub_refl _
  · unfold termGroupAddCreateData
    apply containsSub_append_left
    apply containsSub_append_left
    apply containsSub_append_left
    apply containsSub_append_left
    apply containsSub_append_right
    show containsSub (xmlStringParam (escapeXml s)) (xmlStringParam (escapeXml s)) = true
    exact containsSub_refl _
  · unfold termGroupAddSetDescriptionData
    apply containsSub_append_left
    apply containsSub_append_left
    apply containsSub_append_left
    apply containsSub_append_right
    show containsSub (xmlStringParam (escapeXml s)) (xmlStringParam (escapeXml s)) = true
    exact containsSub_refl _

/-- Witness for C8 at a concrete string holding all the special
characters. -/
theorem encoder_escapes_string_parameters_witness :
    containsSub (termSetListRequestData "cli" ⟨none, none, some "R&D <\"Teams\">"⟩)
      ("<Parameter Type=\"String\">" ++ escapeXml "R&D <\"Teams\">" ++ "</Parameter>") = true ∧
    containsSub (termGroupAddCreateData "cli" "R&D <\"Teams\">"
        "11111111-1111-1111-1111-111111111111" "store-identity")
      ("<Parameter Type=\"String\">" ++ escapeXml "R&D <\"Teams\">" ++ "</Parameter>") = true ∧
    containsSub (termGroupAddSetDescriptionData "cli" "R&D <\"Teams\">" "group-identity")
      ("<Parameter Type=\"String\">" ++ escapeXml "R&D <\"Teams\">" ++ "</Parameter>") = true :=
  encoder_escapes_string_parameters "R&D <\"Teams\">" (by decide)
    "cli" "11111111-1111-1111-1111-111111111111" "store-identity" "group-identity" none

end CliM365

namespace CliM365

/-! ## Option validation (term-set-list lines 64-83, term-group-add
lines 204-218)

The validator utilities (`validation.isValidSharePointUrl`,
`validation.isValidGuid`) and the framework that runs validators before
`commandAction` live outside src/ and are modelled from the spec; the
validator bodies themselves are transcribed from the source. -/

/-- A TypeScript `boolean | string` validation result: `true`, `false`,
or an explanatory message. -/
inductive ValidationResult : Type where
  | vTrue : ValidationResult
  | vFalse : ValidationResult
  | vMsg : String → ValidationResult
deriving DecidableEq

/-- Modelled from the spec: `validation.isValidSharePointUrl` (a utility
that is not under src/) — "validation rejects ... non-matching site
URLs"; per the spec's scenario `foo` must fail with a non-true result
and `https://contoso.sharepoint.com` must pass, so a URL is valid
exactly when it starts with `https://`. -/
def isValidSharePointUrl (url : String) : ValidationResult :=
  if url = "" then .vFalse
  else if matchAt "https://".data url.data then .vTrue
  else .vMsg (url ++ " is not a valid SharePoint Online site URL")

/-- The validator of term-set-list lines 64-83: check `webUrl` when
truthy (returning any non-true result), then `termGroupId` when truthy
against the GUID shape, else `true`. -/
def termSetListValidator (opts : TermSetListOptions) : ValidationResult :=
  let guidStep : ValidationResult :=
    if strOptTruthy opts.termGroupId then
      if isValidGuid (templateStr opts.termGroupId) then .vTrue
      else .vMsg (templateStr opts.termGroupId ++ " is not a valid GUID")
    else .vTrue
  if strOptTruthy opts.webUrl then
    match isValidSharePointUrl (templateStr opts.webUrl) with
    | .vTrue => guidStep
    | r => r
  else guidStep

/-- The options of the term-group-add command (term-set-list file,
lines 153-158). -/
structure TermGroupAddOptions where
  name : String
  id : Option String
  description : Option String
  webUrl : Option String

/-- The validator of term-group-add lines 204-218: a truthy `id` that is
not a valid GUID yields the GUID message; otherwise a truthy `webUrl` is
checked and the result of `isValidSharePointUrl` — true or not — is
returned directly; else `true`. -/
def termGroupAddValidator (opts : TermGroupAddOptions) : ValidationResult :=
  if strOptTruthy opts.id && !isValidGuid (templateStr opts.id) then
    .vMsg (templateStr opts.id ++ " is not a valid GUID")
  else if strOptTruthy opts.webUrl then
    isValidSharePointUrl (templateStr opts.webUrl)
  else .vTrue

/-- Outcome of one command invocation run through the validation
pipeline. -/
inductive RunOutcome (β : Type) : Type where
  | validationFailed : ValidationResult → RunOutcome β
  | completed : β → RunOutcome β

/-- Modelled from the spec: the command framework (not under src/) runs
the registered validators before `commandAction`; a non-true result is
"local, raised before any network call ... no network side effect
occurs". The action's network activity is represented by the list of
request bodies it would send. -/
def runValidatedCommand {α β : Type} (validator : α → ValidationResult)
    (action : α → β × List String) (opts : α) : RunOutcome β × List String :=
  match validator opts with
  | .vTrue => let r := action opts; (.completed r.1, r.2)
  | r => (.validationFailed r, [])

end CliM365

namespace CliM365

/-- **C7.** Option validation runs before any network call and fails
locally with no network side effect, for both commands: for every
action and every option set one of the embedded validators rejects, the
run ends as a validation failure with an empty request list;
`webUrl = "foo"` yields a non-true validation result from either
command; an invalid GUID `g` supplied as `termGroupId` (term-set list)
or as `id` (term-group add) yields the message
`g is not a valid GUID`; and `webUrl = "https://contoso.sharepoint.com"`
passes validation of either command with result `true`. -/
theorem validation_before_network {β γ : Type}
    (action : TermSetListOptions → β × List String)
    (gAction : TermGroupAddOptions → γ × List String)
    (opts : TermSetListOptions) (gOpts : TermGroupAddOptions)
    (hbad : termSetListValidator opts ≠ .vTrue)
    (hgbad : termGroupAddValidator gOpts ≠ .vTrue)
    (g : String) (hg : isValidGuid g = false) (hgne : (g != "") = true)
    (nm : String) (desc webUrl : Option String) :
    runValidatedCommand termSetListValidator action opts =
      (.validationFailed (termSetListValidator opts), []) ∧
    runValidatedCommand termGroupAddValidator gAction gOpts =
      (.validationFailed (termGroupAddValidator gOpts), []) ∧
    termSetListValidator ⟨some "foo", none, none⟩ ≠ .vTrue ∧
    termGroupAddValidator ⟨nm, none, none, some "foo"⟩ ≠ .vTrue ∧
    termSetListValidator ⟨none, some g, none⟩ =
      .vMsg (g ++ " is not a valid GUID") ∧
    termGroupAddValidator ⟨nm, some g, desc, webUrl⟩ =
      .vMsg (g ++ " is not a valid GUID") ∧
    termSetListValidator ⟨some "https://contoso.sharepoint.com", none, none⟩ = .vTrue ∧
    termGroupAddValidator ⟨nm, none, none, some "https://contoso.sharepoint.com"⟩ = .vTrue := by
  refine ⟨?_, ?_, by decide, ?_, ?_, ?_, by decide, ?_⟩
  · unfold runValidatedCommand
    cases hv : termSetListValidator opts with
    | vTrue => exact absurd hv hbad
    | vFalse => rfl
    | vMsg m => rfl
  · unfold runValidatedCommand
    cases hv : termGroupAddValidator gOpts with
    | vTrue => exact absurd hv hgbad
    | vFalse => rfl
    | vMsg m => rfl
  · intro h
    have hred : termGroupAddValidator ⟨nm, none, none, some "foo"⟩ =
        isValidSharePointUrl "foo" := rfl
    rw [hred] at h
    exact absurd h (by decide)
  · unfold termSetListValidator
    simp only [strOptTruthy, templateStr]
    rw [if_neg (by simp), if_pos hgne, if_neg (by simp [hg])]
  · unfold termGroupAddValidator
    dsimp only
    have hcond : (strOptTruthy (some g) && !isValidGuid (templateStr (some g))) = true := by
      simp [strOptTruthy, templateStr, hg, hgne]
    rw [if_pos hcond]
    rfl
  · have hred : termGroupAddValidator ⟨nm, none, none, some "https://contoso.sharepoint.com"⟩ =
        isValidSharePointUrl "https://contoso.sharepoint.com" := rfl
    rw [hred]
    decide

/-- Witness for C7: concrete rejected invocations of both commands —
the recorded request list stays empty even though each action would
have sent a request — plus the concrete scenario options. -/
theorem validation_before_network_witness :
    runValidatedCommand termSetListValidator
        (fun _ => ((), ["<Request />"])) ⟨some "foo", none, none⟩ =
      (.validationFailed (termSetListValidator ⟨some "foo", none, none⟩), []) ∧
    runValidatedCommand termGroupAddValidator
        (fun _ => ((), ["<Request />"])) ⟨"PnPTermSets", some "invalid", none, none⟩ =
      (.validationFailed
        (termGroupAddValidator ⟨"PnPTermSets", some "invalid", none, none⟩), []) ∧
    termSetListValidator ⟨some "foo", none, none⟩ ≠ .vTrue ∧
    termGroupAddValidator ⟨"PnPTermSets", none, none, some "foo"⟩ ≠ .vTrue ∧
    termSetListValidator ⟨none, some "invalid", none⟩ =
      .vMsg ("invalid" ++ " is not a valid GUID") ∧
    termGroupAddValidator ⟨"PnPTermSets", some "invalid", none, none⟩ =
      .vMsg ("invalid" ++ " is not a valid GUID") ∧
    termSetListValidator ⟨some "https://contoso.sharepoint.com", none, none⟩ = .vTrue ∧
    termGroupAddValidator
      ⟨"PnPTermSets", none, none, some "https://contoso.sharepoint.com"⟩ = .vTrue :=
  validation_before_network (fun _ => ((), ["<Request />"]))
    (fun _ => ((), ["<Request />"]))
    ⟨some "foo", none, none⟩ ⟨"PnPTermSets", some "invalid", none, none⟩
    (by decide) (by decide) "invalid" (by decide) (by decide)
    "PnPTermSets" none none

end CliM365

namespace CliM365

/-! ## Result normalization and the command runs

Term-set-list lines 118-128 and term-group-add lines 272-301. -/

/-- JavaScript `.length` member: arrays and strings have one, anything
else yields `undefined`. -/
def jsLength : JVal → Option Nat
  | .arr items => some items.length
  | .str s => some s.length
  | _ => none

/-- The per-item normalization of term-set-list lines 120-124: rewrite
`CreatedDate` and `LastModifiedDate` through the wrapped-date
normalization and unwrap the `/Guid(...)/` around `Id`, mutating the
record in place. `none` models the TypeError/RangeError thrown when a
field is missing, not a string, or an invalid date. -/
def normalizeTermSetItem (t : JVal) : Option JVal :=
  match t with
  | .obj fields =>
    match JVal.lookupField fields "CreatedDate" with
    | some (.str cd) =>
      match normalizeDateField cd with
      | some cdIso =>
        let f1 := JVal.setField "CreatedDate" (.str cdIso) fields
        match JVal.lookupField f1 "Id" with
        | some (.str idv) =>
          let f2 := JVal.setField "Id" (.str (unwrapGuid idv)) f1
          match JVal.lookupField f2 "LastModifiedDate" with
          | some (.str lmd) =>
            match normalizeDateField lmd with
            | some lmdIso => some (.obj (JVal.setField "LastModifiedDate" (.str lmdIso) f2))
            | none => none
          | _ => none
        | _ => none
      | none => none
    | _ => none
  | _ => none

/-- `Array.prototype.map` of the item normalization (line 120): the
whole traversal throws as soon as one item does. -/
def mapNormalize : List JVal → Option (List JVal)
  | [] => some []
  | t :: ts =>
    match normalizeTermSetItem t with
    | some t' =>
      match mapNormalize ts with
      | some ts' => some (t' :: ts')
      | none => none
    | none => none

/-- Outcome of one command action: a thrown value, a modelled runtime
error, or completion carrying what was logged. -/
inductive CmdOutcome (β : Type) : Type where
  | threw : Option JVal → CmdOutcome β
  | crashed : CmdOutcome β
  | done : β → CmdOutcome β

/-- The decode-and-log tail of term-set-list `commandAction` (lines
112-128), applied to the parsed response array: decode the batch, and
when `_Child_Items_` is truthy with positive length, normalize every
item and log the list — otherwise log nothing (`done none`). -/
def termSetListRun (json : List JVal) : CmdOutcome (Option (List JVal)) :=
  match decodeClientSvcResponse json with
  | none => .crashed
  | some (.err m) => .threw m
  | some (.ok result) =>
    match result with
    | .null => .crashed
    | _ =>
      match result.member "_Child_Items_" with
      | none => .done none
      | some ci =>
        if ci.truthy then
          match jsLength ci with
          | none => .done none
          | some len =>
            if 0 < len then
              match ci with
              | .arr items =>
                match mapNormalize items with
                | some items' => .done (some items')
                | none => .crashed
              | _ => .crashed
            else .done none
        else .done none

/-- `args.options.description || ''` of term-group-add line 300. -/
def descOrEmpty : Option String → String
  | none => ""
  | some d => if d != "" then d else ""

/-- `args.options.id || v4()` of term-group-add line 249: the supplied
id when truthy, else the generated GUID. -/
def chosenGroupId (id : Option String) (freshGuid : String) : String :=
  if strOptTruthy id then templateStr id else freshGuid

/-- `${x._ObjectIdentity_}` template interpolation (term-group-add lines
260 and 283): in every term-store response this member is a string;
an absent member interpolates as `undefined` (other JSON shapes do not
occur there and are approximated by the same default). -/
def memberTemplate (v : JVal) (key : String) : String :=
  match v.member key with
  | some (.str s) => s
  | _ => "undefined"

/-- The output normalization of term-group-add lines 297-301: delete
`_ObjectIdentity_` and `_ObjectType_`, unwrap the `/Guid(...)/` around
`Id`, default the `Description`, and log the record. `none` models the
TypeError when `Id` is missing or not a string. -/
def normalizeTermGroupOutput (description : Option String) (tg : JVal) : Option JVal :=
  match tg with
  | .obj fields =>
    let f2 := JVal.deleteField "_ObjectType_" (JVal.deleteField "_ObjectIdentity_" fields)
    match JVal.lookupField f2 "Id" with
    | some (.str idv) =>
      some (.obj (JVal.setField "Description" (.str (descOrEmpty description))
        (JVal.setField "Id" (.str (unwrapGuid idv)) f2)))
    | _ => none
  | _ => none

/-- The orchestration of term-group-add `commandAction` (lines 220-306)
after the digest was obtained: query the term store, create the group,
conditionally set the description, then normalize and log. `responses n`
is the parsed JSON array answering the `n`-th issued `ProcessQuery`
request; the second component records the issued request bodies in
order. -/
def termGroupAddRun (app : String) (opts : TermGroupAddOptions) (freshGuid : String)
    (responses : Nat → List JVal) : CmdOutcome JVal × List String :=
  let req1 := termGroupAddStoreQueryData app
  match decodeClientSvcResponse (responses 0) with
  | none => (.crashed, [req1])
  | some (.err m) => (.threw m, [req1])
  | some (.ok termStore) =>
    let req2 := termGroupAddCreateData app opts.name (chosenGroupId opts.id freshGuid)
      (memberTemplate termStore "_ObjectIdentity_")
    match decodeClientSvcResponse (responses 1) with
    | none => (.crashed, [req1, req2])
    | some (.err m) => (.threw m, [req1, req2])
    | some (.ok termGroup) =>
      if strOptTruthy opts.description then
        let req3 := termGroupAddSetDescriptionData app (templateStr opts.description)
          (memberTemplate termGroup "_ObjectIdentity_")
        match decodeClientSvcResponse (responses 2) with
        | none => (.crashed, [req1, req2, req3])
        | some (.err m) => (.threw m, [req1, req2, req3])
        | some (.ok _) =>
          match normalizeTermGroupOutput opts.description termGroup with
          | some outRec => (.done outRec, [req1, req2, req3])
          | none => (.crashed, [req1, req2, req3])
      else
        match normalizeTermGroupOutput opts.description termGroup with
        | some outRec => (.done outRec, [req1, req2])
        | none => (.crashed, [req1, req2])

end CliM365

namespace CliM365

/-- **C10.** For every successful term-set list invocation whose decoded
result has a missing or empty `_Child_Items_` collection, the command
logs no output record at all, rather than logging an empty list. -/
theorem termSetList_empty_items_logs_nothing (json : List JVal)
    (fields : List (String × JVal))
    (hdec : decodeClientSvcResponse json = some (.ok (JVal.obj fields)))
    (hempty : JVal.lookupField fields "_Child_Items_" = none ∨
      JVal.lookupField fields "_Child_Items_" = some (.arr [])) :
    termSetListRun json = .done none := by
  unfold termSetListRun
  rw [hdec]
  rcases hempty with h | h
  · simp only [JVal.member, h]
  · simp only [JVal.member, h]
    rfl

/-- Witness for C10: a successful batch response whose result has an
empty `_Child_Items_` array, and one whose result lacks it. -/
theorem termSetList_empty_items_logs_nothing_witness :
    termSetListRun
      [JVal.obj [("ErrorInfo", JVal.null)],
       JVal.obj [("_ObjectType_", JVal.str "SP.Taxonomy.TermSetCollection"),
                 ("_Child_Items_", JVal.arr [])]] = .done none ∧
    termSetListRun
      [JVal.obj [("ErrorInfo", JVal.null)],
       JVal.obj [("_ObjectType_", JVal.str "SP.Taxonomy.TermSetCollection")]] = .done none :=
  ⟨termSetList_empty_items_logs_nothing _
      [("_ObjectType_", JVal.str "SP.Taxonomy.TermSetCollection"),
       ("_Child_Items_", JVal.arr [])] rfl (Or.inr rfl),
   termSetList_empty_items_logs_nothing _
      [("_ObjectType_", JVal.str "SP.Taxonomy.TermSetCollection")] rfl (Or.inl rfl)⟩

/-- **C9.** In the term-group-add orchestration (with the first two
batches decoded successfully), the third batch — setting the Description
— is sent if and only if the description option was supplied (truthy);
and when that third batch fails after the second (CreateGroup)
succeeded, no cleanup or rollback request is issued: the run ends by
surfacing exactly the server's error, with the issued requests being
precisely the three sent so far. -/
theorem termGroupAdd_no_rollback (app freshGuid : String)
    (opts : TermGroupAddOptions) (responses : Nat → List JVal)
    (ts tg : JVal)
    (h0 : decodeClientSvcResponse (responses 0) = some (.ok ts))
    (h1 : decodeClientSvcResponse (responses 1) = some (.ok tg)) :
    ((termGroupAddRun app opts freshGuid responses).2.length = 3 ↔
      strOptTruthy opts.description = true) ∧
    (∀ m, strOptTruthy opts.description = true →
      decodeClientSvcResponse (responses 2) = some (.err m) →
      termGroupAddRun app opts freshGuid responses =
        (.threw m,
         [termGroupAddStoreQueryData app,
          termGroupAddCreateData app opts.name (chosenGroupId opts.id freshGuid)
            (memberTemplate ts "_ObjectIdentity_"),
          termGroupAddSetDescriptionData app (templateStr opts.description)
            (memberTemplate tg "_ObjectIdentity_")])) := by
  constructor
  · unfold termGroupAddRun
    rw [h0, h1]
    dsimp only
    by_cases hd : strOptTruthy opts.description = true
    · rw [if_pos hd]
      cases hdec : decodeClientSvcResponse (responses 2) with
      | none => simpa using hd
      | some out =>
        cases out with
        | err m => simpa using hd
        | ok v =>
          cases hnorm : normalizeTermGroupOutput opts.description tg with
          | none => simpa [hnorm] using hd
          | some outRec => simpa [hnorm] using hd
    · rw [if_neg hd]
      cases hnorm : normalizeTermGroupOutput opts.description tg with
      | none =>
        simp only [hnorm]
        constructor
        · intro hlen
          simp at hlen
        · intro hx
          exact absurd hx hd
      | some outRec =>
        simp only [hnorm]
        constructor
        · intro hlen
          simp at hlen
        · intro hx
          exact absurd hx hd
  · intro m hd h2
    unfold termGroupAddRun
    rw [h0, h1]
    dsimp only
    rw [if_pos hd, h2]

/-- Witness for C9: a concrete run in which the description batch fails
after the group was created; exactly three requests were issued. -/
theorem termGroupAdd_no_rollback_witness :
    ((termGroupAddRun "cli"
        ⟨"PnPTermSets", some "11111111-1111-1111-1111-111111111111", some "a term group", none⟩
        "d4e5f6" (fun n =>
          if n = 2 then
            [JVal.obj [("ErrorInfo",
              JVal.obj [("ErrorMessage", JVal.str "Group names must be unique.")])]]
          else
            [JVal.obj [("ErrorInfo", JVal.null)],
             JVal.obj [("_ObjectIdentity_", JVal.str "identity-1"),
                       ("Id", JVal.str "/Guid(11111111-1111-1111-1111-111111111111)/"),
                       ("Name", JVal.str "PnPTermSets")]])).2.length = 3 ↔
      strOptTruthy (some "a term group") = true) ∧
    (∀ m, strOptTruthy (some "a term group") = true →
      decodeClientSvcResponse
        [JVal.obj [("ErrorInfo",
          JVal.obj [("ErrorMessage", JVal.str "Group names must be unique.")])]] =
        some (.err m) →
      termGroupAddRun "cli"
        ⟨"PnPTermSets", some "11111111-1111-1111-1111-111111111111", some "a term group", none⟩
        "d4e5f6" (fun n =>
          if n = 2 then
            [JVal.obj [("ErrorInfo",
              JVal.obj [("ErrorMessage", JVal.str "Group names must be unique.")])]]
          else
            [JVal.obj [("ErrorInfo", JVal.null)],
             JVal.obj [("_ObjectIdentity_", JVal.str "identity-1"),
                       ("Id", JVal.str "/Guid(11111111-1111-1111-1111-111111111111)/"),
                       ("Name", JVal.str "PnPTermSets")]]) =
        (.threw m,
         [termGroupAddStoreQueryData "cli",
          termGroupAddCreateData "cli" "PnPTermSets"
            (chosenGroupId (some "11111111-1111-1111-1111-111111111111") "d4e5f6")
            (memberTemplate
              (JVal.obj [("_ObjectIdentity_", JVal.str "identity-1"),
                         ("Id", JVal.str "/Guid(11111111-1111-1111-1111-111111111111)/"),
                         ("Name", JVal.str "PnPTermSets")]) "_ObjectIdentity_"),
          termGroupAddSetDescriptionData "cli" (templateStr (some "a term group"))
            (memberTemplate
              (JVal.obj [("_ObjectIdentity_", JVal.str "identity-1"),
                         ("Id", JVal.str "/Guid(11111111-1111-1111-1111-111111111111)/"),
                         ("Name", JVal.str "PnPTermSets")]) "_ObjectIdentity_")])) :=
  termGroupAdd_no_rollback "cli" "d4e5f6"
    ⟨"PnPTermSets", some "11111111-1111-1111-1111-111111111111", some "a term group", none⟩
    _ _ _ rfl rfl

end CliM365

namespace CliM365

theorem hasKey_deleteField_self (key : String) (f : List (String × JVal)) :
    JVal.hasKey (JVal.deleteField key f) key = false := by
  induction f with
  | nil => rfl
  | cons p rest ih =>
    obtain ⟨k, v⟩ := p
    unfold JVal.deleteField
    by_cases hk : k = key
    · rw [if_pos hk]
      exact ih
    · rw [if_neg hk]
      unfold JVal.hasKey at ih ⊢
      rw [List.any_cons, ih]
      simp [hk]

theorem hasKey_deleteField_other (key other : String) (h : key ≠ other)
    (f : List (String × JVal)) :
    JVal.hasKey (JVal.deleteField other f) key = JVal.hasKey f key := by
  induction f with
  | nil => rfl
  | cons p rest ih =>
    obtain ⟨k, v⟩ := p
    unfold JVal.deleteField
    by_cases hk : k = other
    · rw [if_pos hk]
      rw [ih]
      unfold JVal.hasKey
      rw [List.any_cons]
      have : (k == key) = false := by
        subst hk
        simp only [beq_eq_false_iff_ne, ne_eq]
        exact fun hx => h (hx.symm)
      rw [this]
      simp
    · rw [if_neg hk]
      unfold JVal.hasKey at ih ⊢
      rw [List.any_cons, List.any_cons, ih]

theorem hasKey_setField_other (key skey : String) (h : key ≠ skey) (v : JVal)
    (f : List (String × JVal)) :
    JVal.hasKey (JVal.setField skey v f) key = JVal.hasKey f key := by
  induction f with
  | nil =>
    unfold JVal.setField JVal.hasKey
    rw [List.any_cons]
    have : (skey == key) = false := by
      simp only [beq_eq_false_iff_ne, ne_eq]
      exact fun hx => h hx.symm
    simp [this]
  | cons p rest ih =>
    obtain ⟨k, w⟩ := p
    unfold JVal.setField
    by_cases hk : k = skey
    · rw [if_pos hk]
      unfold JVal.hasKey
      rw [List.any_cons, List.any_cons]
      have h1 : (skey == key) = false := by
        simp only [beq_eq_false_iff_ne, ne_eq]
        exact fun hx => h hx.symm
      have h2 : (k == key) = false := by
        subst hk
        exact h1
      rw [h1, h2]
    · rw [if_neg hk]
      unfold JVal.hasKey at ih ⊢
      rw [List.any_cons, List.any_cons, ih]

/-- The term-set-list item normalization only rewrites the
`CreatedDate`, `Id` and `LastModifiedDate` fields: every other key is
present in the output exactly when it was present in the input. -/
theorem normalizeTermSetItem_preserves_key (key : String)
    (h1 : key ≠ "CreatedDate") (h2 : key ≠ "Id") (h3 : key ≠ "LastModifiedDate")
    (fields out : List (String × JVal))
    (h : normalizeTermSetItem (JVal.obj fields) = some (JVal.obj out)) :
    JVal.hasKey out key = JVal.hasKey fields key := by
  unfold normalizeTermSetItem at h
  dsimp only at h
  rcases hcd : JVal.lookupField fields "CreatedDate" with _ | cdv
  · rw [hcd] at h
    simp at h
  · rw [hcd] at h
    cases cdv with
    | str cd =>
      dsimp only at h
      rcases hni : normalizeDateField cd with _ | cdIso
      · rw [hni] at h
        simp at h
      · rw [hni] at h
        dsimp only at h
        rcases hid : JVal.lookupField (JVal.setField "CreatedDate" (.str cdIso) fields) "Id"
          with _ | idv
        · rw [hid] at h
          simp at h
        · rw [hid] at h
          cases idv with
          | str idval =>
            dsimp only at h
            rcases hlm : JVal.lookupField
                (JVal.setField "Id" (.str (unwrapGuid idval))
                  (JVal.setField "CreatedDate" (.str cdIso) fields)) "LastModifiedDate"
              with _ | lmv
            · rw [hlm] at h
              simp at h
            · rw [hlm] at h
              cases lmv with
              | str lmd =>
                dsimp only at h
                rcases hni2 : normalizeDateField lmd with _ | lmdIso
                · rw [hni2] at h
                  simp at h
                · rw [hni2] at h
                  dsimp only at h
                  injection h with h'
                  injection h' with h''
                  subst h''
                  rw [hasKey_setField_other key "LastModifiedDate" h3,
                    hasKey_setField_other key "Id" h2,
                    hasKey_setField_other key "CreatedDate" h1]
              | null => simp at h
              | bool b => simp at h
              | num n => simp at h
              | arr xs => simp at h
              | obj fs => simp at h
          | null => simp at h
          | bool b => simp at h
          | num n => simp at h
          | arr xs => simp at h
          | obj fs => simp at h
    | null => simp at h
    | bool b => simp at h
    | num n => simp at h
    | arr xs => simp at h
    | obj fs => simp at h

/-- The term-group-add output normalization removes both identity
bookkeeping fields. -/
theorem normalizeTermGroupOutput_strips (desc : Option String)
    (fields out : List (String × JVal))
    (h : normalizeTermGroupOutput desc (JVal.obj fields) = some (JVal.obj out)) :
    JVal.hasKey out "_ObjectIdentity_" = false ∧
      JVal.hasKey out "_ObjectType_" = false := by
  unfold normalizeTermGroupOutput at h
  dsimp only at h
  rcases hid : JVal.lookupField
      (JVal.deleteField "_ObjectType_" (JVal.deleteField "_ObjectIdentity_" fields)) "Id"
    with _ | idv
  · rw [hid] at h
    simp at h
  · rw [hid] at h
    cases idv with
    | str idval =>
      dsimp only at h
      injection h with h'
      injection h' with h''
      subst h''
      constructor
      · rw [hasKey_setField_other _ "Description" (by decide),
          hasKey_setField_other _ "Id" (by decide),
          hasKey_deleteField_other _ "_ObjectType_" (by decide),
          hasKey_deleteField_self]
      · rw [hasKey_setField_other _ "Description" (by decide),
          hasKey_setField_other _ "Id" (by decide),
          hasKey_deleteField_self]
    | null => simp at h
    | bool b => simp at h
    | num n => simp at h
    | arr xs => simp at h
    | obj fs => simp at h

end CliM365

namespace CliM365

/-- **C3 counterexample.** The claim as stated is false for the
term-set-list command: its normalization (lines 119-127) never deletes
`_ObjectIdentity_` or `_ObjectType_`, so a response item carrying them
is logged with both keys still present. -/
theorem normalize_keeps_identity_fields_counterexample :
    termSetListRun
      [JVal.obj [("ErrorInfo", JVal.null)],
       JVal.obj [("_Child_Items_", JVal.arr
         [JVal.obj
           [("_ObjectType_", JVal.str "SP.Taxonomy.TermSet"),
            ("_ObjectIdentity_", JVal.str "termset-identity-1"),
            ("CreatedDate", JVal.str "/Date(0)/"),
            ("Id", JVal.str "/Guid(7a167c47-2b37-41d0-94d0-e962c1a4f2ed)/"),
            ("LastModifiedDate", JVal.str "/Date(0)/"),
            ("Name", JVal.str "PnP-CollabFooter-SharedLinks")]])]] =
      .done (some
        [JVal.obj
          [("_ObjectType_", JVal.str "SP.Taxonomy.TermSet"),
           ("_ObjectIdentity_", JVal.str "termset-identity-1"),
           ("CreatedDate", JVal.str "1970-01-01T00:00:00.000Z"),
           ("Id", JVal.str "7a167c47-2b37-41d0-94d0-e962c1a4f2ed"),
           ("LastModifiedDate", JVal.str "1970-01-01T00:00:00.000Z"),
           ("Name", JVal.str "PnP-CollabFooter-SharedLinks")]]) ∧
    JVal.hasKey
      [("_ObjectType_", JVal.str "SP.Taxonomy.TermSet"),
       ("_ObjectIdentity_", JVal.str "termset-identity-1"),
       ("CreatedDate", JVal.str "1970-01-01T00:00:00.000Z"),
       ("Id", JVal.str "7a167c47-2b37-41d0-94d0-e962c1a4f2ed"),
       ("LastModifiedDate", JVal.str "1970-01-01T00:00:00.000Z"),
       ("Name", JVal.str "PnP-CollabFooter-SharedLinks")] "_ObjectIdentity_" = true ∧
    JVal.hasKey
      [("_ObjectType_", JVal.str "SP.Taxonomy.TermSet"),
       ("_ObjectIdentity_", JVal.str "termset-identity-1"),
       ("CreatedDate", JVal.str "1970-01-01T00:00:00.000Z"),
       ("Id", JVal.str "7a167c47-2b37-41d0-94d0-e962c1a4f2ed"),
       ("LastModifiedDate", JVal.str "1970-01-01T00:00:00.000Z"),
       ("Name", JVal.str "PnP-CollabFooter-SharedLinks")] "_ObjectType_" = true := by
  refine ⟨?_, by decide, by decide⟩
  rfl

/-- **C3 (amended).** The term-group-add output normalization (lines
297-298) never leaves `_ObjectIdentity_` or `_ObjectType_` in the logged
record; the term-set-list item normalization (lines 120-124) rewrites
only `CreatedDate`, `Id` and `LastModifiedDate`, so either identity key
survives in a logged item exactly when the response item carried it. -/
theorem normalize_identity_fields (desc : Option String)
    (gFields gOut sFields sOut : List (String × JVal))
    (hg : normalizeTermGroupOutput desc (JVal.obj gFields) = some (JVal.obj gOut))
    (hi : normalizeTermSetItem (JVal.obj sFields) = some (JVal.obj sOut)) :
    (JVal.hasKey gOut "_ObjectIdentity_" = false ∧
      JVal.hasKey gOut "_ObjectType_" = false) ∧
    (JVal.hasKey sOut "_ObjectIdentity_" = JVal.hasKey sFields "_ObjectIdentity_" ∧
      JVal.hasKey sOut "_ObjectType_" = JVal.hasKey sFields "_ObjectType_") :=
  ⟨normalizeTermGroupOutput_strips desc gFields gOut hg,
   normalizeTermSetItem_preserves_key "_ObjectIdentity_" (by decide) (by decide) (by decide)
     sFields sOut hi,
   normalizeTermSetItem_preserves_key "_ObjectType_" (by decide) (by decide) (by decide)
     sFields sOut hi⟩

/-- Witness for the amended C3: concrete term-group and term-set
snapshots run through both normalizations. -/
theorem normalize_identity_fields_witness :
    (JVal.hasKey
        [("Name", JVal.str "PnPTermSets"),
         ("Id", JVal.str "11111111-1111-1111-1111-111111111111"),
         ("Description", JVal.str "")] "_ObjectIdentity_" = false ∧
      JVal.hasKey
        [("Name", JVal.str "PnPTermSets"),
         ("Id", JVal.str "11111111-1111-1111-1111-111111111111"),
         ("Description", JVal.str "")] "_ObjectType_" = false) ∧
    (JVal.hasKey
        [("_ObjectIdentity_", JVal.str "termset-identity-1"),
         ("CreatedDate", JVal.str "1970-01-01T00:00:00.000Z"),
         ("Id", JVal.str "7a167c47-2b37-41d0-94d0-e962c1a4f2ed"),
         ("LastModifiedDate", JVal.str "1970-01-01T00:00:00.000Z")] "_ObjectIdentity_" =
      JVal.hasKey
        [("_ObjectIdentity_", JVal.str "termset-identity-1"),
         ("CreatedDate", JVal.str "/Date(0)/"),
         ("Id", JVal.str "/Guid(7a167c47-2b37-41d0-94d0-e962c1a4f2ed)/"),
         ("LastModifiedDate", JVal.str "/Date(0)/")] "_ObjectIdentity_" ∧
      JVal.hasKey
        [("_ObjectIdentity_", JVal.str "termset-identity-1"),
         ("CreatedDate", JVal.str "1970-01-01T00:00:00.000Z"),
         ("Id", JVal.str "7a167c47-2b37-41d0-94d0-e962c1a4f2ed"),
         ("LastModifiedDate", JVal.str "1970-01-01T00:00:00.000Z")] "_ObjectType_" =
      JVal.hasKey
        [("_ObjectIdentity_", JVal.str "termset-identity-1"),
         ("CreatedDate", JVal.str "/Date(0)/"),
         ("Id", JVal.str "/Guid(7a167c47-2b37-41d0-94d0-e962c1a4f2ed)/"),
         ("LastModifiedDate", JVal.str "/Date(0)/")] "_ObjectType_") :=
  normalize_identity_fields none
    [("_ObjectIdentity_", JVal.str "group-identity-1"),
     ("_ObjectType_", JVal.str "SP.Taxonomy.TermGroup"),
     ("Name", JVal.str "PnPTermSets"),
     ("Id", JVal.str "/Guid(11111111-1111-1111-1111-111111111111)/")]
    [("Name", JVal.str "PnPTermSets"),
     ("Id", JVal.str "11111111-1111-1111-1111-111111111111"),
     ("Description", JVal.str "")]
    [("_ObjectIdentity_", JVal.str "termset-identity-1"),
     ("CreatedDate", JVal.str "/Date(0)/"),
     ("Id", JVal.str "/Guid(7a167c47-2b37-41d0-94d0-e962c1a4f2ed)/"),
     ("LastModifiedDate", JVal.str "/Date(0)/")]
    [("_ObjectIdentity_", JVal.str "termset-identity-1"),
     ("CreatedDate", JVal.str "1970-01-01T00:00:00.000Z"),
     ("Id", JVal.str "7a167c47-2b37-41d0-94d0-e962c1a4f2ed"),
     ("LastModifiedDate", JVal.str "1970-01-01T00:00:00.000Z")]
    rfl rfl

end CliM365
